import Mathlib

/-!
Shallow embedding of the greenhouse simulation engine
(`src/server/src/services/SensorSimulator.ts` and
`src/server/src/services/GreenhouseManager.ts`).

JavaScript numbers are modelled as exact rationals (`ℚ`); `Math.floor`,
`Math.ceil` and `Math.round` become `Int.floor`, `Int.ceil` and `round`.
The two hidden side maps of `SensorSimulator` (`ventilationStartTime`,
`overFertilizerTime`) are passed explicitly: a missing map entry is
`none` (respectively counter `0`), exactly as the TypeScript code treats
an absent key.
-/

namespace Greenhouse

/-- Simulation constants of `SensorSimulator` (verbatim from the source). -/
def BASE_GROWTH_RATE : ℚ := 2/10

def OPTIMAL_TEMP : ℚ := 22

def DEATH_TEMP : ℚ := 60

def OPTIMAL_MOISTURE_MIN : ℚ := 50

def OPTIMAL_MOISTURE_MAX : ℚ := 80

def MAX_HUMIDITY : ℚ := 85

def WATER_INCREASE_RATE : ℚ := 3

def EVAPORATION_RATE : ℚ := 6/10

def FERTILIZER_RATE : ℚ := 20

def OVER_FERTILIZER_DEATH : Nat := 10

def FERTILIZER_DECAY : ℚ := 1

def LIGHT_HEAT_EFFECT : ℚ := 3/500

def MAX_PLANT_SIZE : ℚ := 15

def VENTILATION_EXCHANGE_TIME : ℚ := 30

/-- `PlantTable` from `greenhouse.types` (fields used by the engine). -/
structure PlantTable where
  id : Nat
  pos : String
  temperature : ℚ
  plantSize : ℚ
  plantCount : ℚ
  soilMoisture : ℚ
  soilFertility : ℚ
  artLight : ℚ
  water : Bool
  fertilizer : Bool
  plantedDate : Int
deriving Repr, DecidableEq

/-- `GreenhouseData` from `greenhouse.types`. -/
structure GreenhouseData where
  id : Nat
  name : String
  lightIntensity : ℚ
  temperature : ℚ
  humidity : ℚ
  fan : Bool
  shading : ℚ
  tables : List PlantTable
deriving Repr, DecidableEq

/-- `SensorSimulator.updateGreenhouseEnvironment`.  Takes the greenhouse,
the current environment record's average temperature `tavg`, the
ventilation-start map entry for this greenhouse (`none` when absent) and
the simulator's `minuteOfTheDay`; returns the updated greenhouse and the
new ventilation-start entry. -/
def updateGreenhouseEnvironment (gh : GreenhouseData) (tavg : ℚ)
    (ventStart : Option ℚ) (minuteOfDay : ℚ) : GreenhouseData × Option ℚ :=
  let light : ℚ := (round (1000 * (1 - gh.shading / 100)) : ℤ)
  let lightHeatIncrease := light * LIGHT_HEAT_EFFECT
  let step1 : GreenhouseData × Option ℚ :=
    if gh.fan then
      let vs := ventStart.getD minuteOfDay
      let ventilationDuration := minuteOfDay - vs
      let t1 :=
        if ventilationDuration ≥ VENTILATION_EXCHANGE_TIME then
          gh.temperature - (gh.temperature - tavg) * (1/10)
        else gh.temperature
      let h1 := gh.humidity -
        (gh.humidity - 60) * (ventilationDuration / VENTILATION_EXCHANGE_TIME) * (5/100)
      ({ gh with lightIntensity := light, temperature := t1, humidity := h1 }, some vs)
    else
      ({ gh with lightIntensity := light,
                 temperature := gh.temperature + lightHeatIncrease / 60 }, none)
  let g1 := step1.1
  let h2 := if g1.humidity > MAX_HUMIDITY then MAX_HUMIDITY else g1.humidity
  ({ g1 with temperature := max 0 (min 70 g1.temperature),
             humidity := max 0 (min 100 h2) }, step1.2)

/-- `SensorSimulator.calculateMoistureFactor`. -/
def calculateMoistureFactor (moisture : ℚ) : ℚ :=
  if moisture ≥ OPTIMAL_MOISTURE_MIN ∧ moisture ≤ OPTIMAL_MOISTURE_MAX then 1
  else if moisture < OPTIMAL_MOISTURE_MIN then moisture / OPTIMAL_MOISTURE_MIN
  else if moisture > OPTIMAL_MOISTURE_MAX then max 0 ((100 - moisture) / 20)
  else 0

/-- `SensorSimulator.calculateFertilityFactor`. -/
def calculateFertilityFactor (fertility : ℚ) : ℚ :=
  if fertility ≥ 60 ∧ fertility ≤ 100 then 1
  else if fertility < 60 then fertility / 60
  else if fertility > 100 then max 0 (1 - (fertility - 100) / 50)
  else 0

/-- `SensorSimulator.calculateLightFactor`. -/
def calculateLightFactor (houseLight tableLight : ℚ) : ℚ :=
  let totalLight := houseLight + tableLight
  if totalLight ≥ 400 ∧ totalLight ≤ 800 then 1
  else if totalLight < 400 then totalLight / 400
  else max (1/2) (800 / totalLight)

/-- `SensorSimulator.calculateTemperatureFactor`. -/
def calculateTemperatureFactor (temp : ℚ) : ℚ :=
  if temp < 5 then 0
  else if temp < OPTIMAL_TEMP then (temp - 5) / (OPTIMAL_TEMP - 5)
  else if temp = OPTIMAL_TEMP then 1
  else if temp ≤ 40 then 1 - (temp - OPTIMAL_TEMP) / (40 - OPTIMAL_TEMP)
  else max 0 (1 - (temp - 40) / (DEATH_TEMP - 40))

/-- `SensorSimulator.calculateMaxPlants`. -/
def calculateMaxPlants (plantSize : ℚ) : ℚ :=
  if plantSize ≤ 2 then 480
  else
    let sizeRatio := plantSize / MAX_PLANT_SIZE
    max 24 ((⌊(480 : ℚ) / (sizeRatio * sizeRatio)⌋ : ℤ) : ℚ)

/-- `SensorSimulator.replantTable` (mutation rendered functionally). -/
def replantTable (table : PlantTable) (currentDay : Int) : PlantTable :=
  { table with plantCount := 480, plantSize := 2,
               soilFertility := min 100 (table.soilFertility + 20),
               plantedDate := currentDay }

/-- `SensorSimulator.harvestPlants`: remove `floor(0.95 × count)` plants and
replant when the remainder is below the 24-plant threshold. -/
def harvestPlants (table : PlantTable) (currentDay : Int) : PlantTable :=
  let harvestCount : ℚ := ((⌊table.plantCount * (95/100)⌋ : ℤ) : ℚ)
  let t1 := { table with plantCount := table.plantCount - harvestCount }
  if t1.plantCount < 24 then replantTable t1 currentDay else t1

/-- The water-management block of `updateTableData` (watering / evaporation,
plus fertilizer while watering). -/
def waterStep (table : PlantTable) (house : GreenhouseData) : PlantTable :=
  if table.water then
    let t1 := { table with soilMoisture := min 100 (table.soilMoisture + WATER_INCREASE_RATE) }
    if table.fertilizer then
      { t1 with soilFertility := min 150 (t1.soilFertility + FERTILIZER_RATE) }
    else t1
  else
    let tempFactor := max 0 ((house.temperature - 10) / 40)
    let humidityFactor := max 0 (1 - house.humidity / 100)
    let evaporationRate := EVAPORATION_RATE * tempFactor * humidityFactor
    { table with soilMoisture := max 0 (table.soilMoisture - evaporationRate) }

/-- The fertilizer-decay block of `updateTableData`. -/
def decayStep (table : PlantTable) : PlantTable :=
  if table.soilFertility > 0 then
    { table with soilFertility := max 0 (table.soilFertility - FERTILIZER_DECAY) }
  else table

/-- The growth block of `updateTableData`: plant size increases by the
product of the four growth factors times the base rate, when positive. -/
def growthStep (table : PlantTable) (house : GreenhouseData) : PlantTable :=
  let growthRate := BASE_GROWTH_RATE *
    calculateMoistureFactor table.soilMoisture *
    calculateFertilityFactor table.soilFertility *
    calculateLightFactor house.lightIntensity table.artLight *
    calculateTemperatureFactor house.temperature
  if growthRate > 0 then { table with plantSize := table.plantSize + growthRate } else table

/-- The drought block of `updateTableData`: below 10% moisture, 1% of the
population (rounded up) dies. -/
def droughtStep (table : PlantTable) : PlantTable :=
  if table.soilMoisture < 10 then
    let deathCount : ℚ := ((⌈table.plantCount * (1/100)⌉ : ℤ) : ℚ)
    { table with plantCount := max 0 (table.plantCount - deathCount) }
  else table

/-- The low-population replant check of `updateTableData`. -/
def replantCheckStep (table : PlantTable) (currentDay : Int) : PlantTable :=
  if table.plantCount < 24 then replantTable table currentDay else table

/-- The harvest check of `updateTableData`. -/
def harvestCheckStep (table : PlantTable) (currentDay : Int) : PlantTable :=
  if table.plantSize ≥ 30 ∧ table.soilMoisture ≤ 50 then harvestPlants table currentDay
  else table

/-- The crowding block of `updateTableData`: clamp the population to the
capacity computed from the current plant size. -/
def crowdingStep (table : PlantTable) : PlantTable :=
  let maxPlants := calculateMaxPlants table.plantSize
  if table.plantCount > maxPlants then { table with plantCount := maxPlants } else table

/-- Steps 4–11 of `updateTableData` (everything after the death checks),
in source order: water management, fertilizer decay, growth, drought,
low-population replant, temperature mirroring, harvest, crowding. -/
def tableGrowthSteps (table : PlantTable) (house : GreenhouseData) (currentDay : Int) :
    PlantTable :=
  let t1 := waterStep table house
  let t2 := decayStep t1
  let t3 := growthStep t2 house
  let t4 := droughtStep t3
  let t5 := replantCheckStep t4 currentDay
  let t6 := { t5 with temperature := house.temperature }
  let t7 := harvestCheckStep t6 currentDay
  crowdingStep t7

/-- `SensorSimulator.updateTableData`.  `overFert` is the
`overFertilizerTime` map entry for this table (`0` when absent); the
result pairs the updated table with the new counter value. -/
def updateTableData (table : PlantTable) (house : GreenhouseData)
    (overFert : Nat) (currentDay : Int) : PlantTable × Nat :=
  if table.plantCount ≤ 0 ∨ table.plantSize ≤ 0 then (table, overFert)
  else if house.temperature > DEATH_TEMP then
    ({ table with plantCount := 0, plantSize := 0 }, overFert)
  else if table.soilFertility > 100 then
    let overTime := overFert + 1
    if overTime ≥ OVER_FERTILIZER_DEATH then
      ({ table with plantCount := 0, plantSize := 0 }, 0)
    else (tableGrowthSteps table house currentDay, overTime)
  else (tableGrowthSteps table house currentDay, 0)

/-- `GreenhouseManager.getGreenhouse` over the registry rendered as a
list (the `Map` iterated in insertion order). -/
def getGreenhouse (gs : List GreenhouseData) (ghId : Nat) : Option GreenhouseData :=
  gs.find? (fun g => g.id = ghId)

/-- `GreenhouseManager.getTable`: look up the greenhouse, then
`tables.find` on the table id. -/
def getTable (gs : List GreenhouseData) (ghId tableId : Nat) : Option PlantTable :=
  (getGreenhouse gs ghId).bind (fun g => g.tables.find? (fun t => t.id = tableId))

/-- Functional rendering of in-place mutation of the first list element
satisfying `p`: `none` when no element matches (the TS lookup returned
`undefined`). -/
def updateFirst {α : Type} (p : α → Bool) (f : α → α) : List α → Option (List α)
  | [] => none
  | x :: xs => if p x then some (f x :: xs) else (updateFirst p f xs).map (x :: ·)

/-- Mutate (functionally) the table found by `getTable`: `none` exactly
when the greenhouse or the table is unknown. -/
def updGreenhouseTable (gs : List GreenhouseData) (ghId tableId : Nat)
    (f : PlantTable → PlantTable) : Option (List GreenhouseData) :=
  match gs with
  | [] => none
  | g :: rest =>
    if g.id = ghId then
      (updateFirst (fun t => t.id = tableId) f g.tables).map
        (fun ts => { g with tables := ts } :: rest)
    else (updGreenhouseTable rest ghId tableId f).map (g :: ·)

/-- `GreenhouseManager.setTableWatering`. -/
def setTableWatering (gs : List GreenhouseData) (ghId tableId : Nat) (state : Bool) :
    Bool × List GreenhouseData :=
  match updGreenhouseTable gs ghId tableId (fun t => { t with water := state }) with
  | some gs1 => (true, gs1)
  | none => (false, gs)

/-- `GreenhouseManager.setTableFertilizer`. -/
def setTableFertilizer (gs : List GreenhouseData) (ghId tableId : Nat) (state : Bool) :
    Bool × List GreenhouseData :=
  match updGreenhouseTable gs ghId tableId (fun t => { t with fertilizer := state }) with
  | some gs1 => (true, gs1)
  | none => (false, gs)

/-- `GreenhouseManager.setTableLight`: the mutation happens only when the
table exists and `0 ≤ lumens ≤ 2000`. -/
def setTableLight (gs : List GreenhouseData) (ghId tableId : Nat) (lumens : ℚ) :
    Bool × List GreenhouseData :=
  match updGreenhouseTable gs ghId tableId (fun t => { t with artLight := lumens }) with
  | some gs1 => if 0 ≤ lumens ∧ lumens ≤ 2000 then (true, gs1) else (false, gs)
  | none => (false, gs)

/-- `GreenhouseManager.setGreenhouseFan`. -/
def setGreenhouseFan (gs : List GreenhouseData) (ghId : Nat) (state : Bool) :
    Bool × List GreenhouseData :=
  match updateFirst (fun g => g.id = ghId) (fun g => { g with fan := state }) gs with
  | some gs1 => (true, gs1)
  | none => (false, gs)

/-- `GreenhouseManager.setGreenhouseShading`: the mutation happens only
when the greenhouse exists and `0 ≤ percentage ≤ 100`. -/
def setGreenhouseShading (gs : List GreenhouseData) (ghId : Nat) (percentage : ℚ) :
    Bool × List GreenhouseData :=
  match updateFirst (fun g => g.id = ghId) (fun g => { g with shading := percentage }) gs with
  | some gs1 => if 0 ≤ percentage ∧ percentage ≤ 100 then (true, gs1) else (false, gs)
  | none => (false, gs)

/-- The clock/speed state of `GreenhouseManager` + `SensorSimulator`. -/
structure ManagerState where
  baseTimeStep : ℚ
  timeStep : ℚ
  simulationSpeed : ℚ
  currentDay : Int
  minuteOfDay : Nat
deriving Repr, DecidableEq

/-- `GreenhouseManager.setSimulationSpeed`: accepted exactly for
`0 < speed ≤ 1000`; on success the effective tick interval becomes
`max(1, baseTimeStep / speed)`; nothing else changes. -/
def setSimulationSpeed (s : ManagerState) (speed : ℚ) : Bool × ManagerState :=
  if speed > 0 ∧ speed ≤ 1000 then
    (true, { s with simulationSpeed := speed,
                    timeStep := max 1 (s.baseTimeStep / speed) })
  else (false, s)

/-! Concrete scenario inputs used by the scenario claims. -/

/-- Harvest-scenario table: `plantSize = 31`, `soilMoisture = 40`,
`plantCount = 480`, fertility 100, water actuator off. -/
def table0 : PlantTable :=
  { id := 1, pos := "G1T1", temperature := 20, plantSize := 31, plantCount := 480,
    soilMoisture := 40, soilFertility := 100, artLight := 0, water := false,
    fertilizer := false, plantedDate := 100 }

/-- A benign greenhouse environment: 20 °C, 60 % humidity, 500 lux, fan off. -/
def house0 : GreenhouseData :=
  { id := 1, name := "G1", lightIntensity := 500, temperature := 20, humidity := 60,
    fan := false, shading := 0, tables := [] }

/-- A dead table (`plantCount = 0`). -/
def deadTable : PlantTable :=
  { table0 with plantCount := 0 }

/-- Fan-on greenhouse at 80 % humidity used for the ventilation claims. -/
def gh2 : GreenhouseData :=
  { id := 1, name := "G1", lightIntensity := 500, temperature := 20, humidity := 80,
    fan := true, shading := 0, tables := [] }

/-- A mid-growth table (5 cm plants) used as a concrete witness input. -/
def table5 : PlantTable :=
  { table0 with plantSize := 5, plantCount := 400 }

/-- A small live population (10 plants of 5 cm) used for the replant witness. -/
def smallTable : PlantTable :=
  { table0 with plantCount := 10, plantSize := 5, soilMoisture := 60 }

/-- An over-fertilized live table (fertility 110 %). -/
def overFertTable : PlantTable :=
  { table0 with soilFertility := 110, plantSize := 5, soilMoisture := 60 }

/-- Clock/speed state at base interval 100 ms, day 5, minute 7. -/
def mgr0 : ManagerState :=
  { baseTimeStep := 100, timeStep := 100, simulationSpeed := 1,
    currentDay := 5, minuteOfDay := 7 }

/-- A one-greenhouse, one-table registry used as a concrete witness input. -/
def registry0 : List GreenhouseData :=
  [{ house0 with tables := [table0] }]

/-- The non-table (environment/actuator) fields of a greenhouse, used to
state that a table mutator changes no greenhouse-level field. -/
def ghEnvFields (g : GreenhouseData) : Nat × String × ℚ × ℚ × ℚ × Bool × ℚ :=
  (g.id, g.name, g.lightIntensity, g.temperature, g.humidity, g.fan, g.shading)

/-- Specification predicate for a table-level actuator mutator: failure on
an unknown id leaves the registry untouched, and success applies exactly
`f` to the addressed table, leaving every other table and every
greenhouse-level field unchanged. -/
def mutatesExactlyTable (gs : List GreenhouseData) (ghId tableId : Nat)
    (r : Bool × List GreenhouseData) (f : PlantTable → PlantTable) : Prop :=
  (getTable gs ghId tableId = none → r = (false, gs)) ∧
  (∀ x, getTable gs ghId tableId = some x →
    r.1 = true ∧
    getTable r.2 ghId tableId = some (f x) ∧
    (∀ g i, ¬(g = ghId ∧ i = tableId) → getTable r.2 g i = getTable gs g i) ∧
    (∀ g, (getGreenhouse r.2 g).map ghEnvFields = (getGreenhouse gs g).map ghEnvFields))

/-- Specification predicate for a greenhouse-level actuator mutator. -/
def ghSetterSpec (gs : List GreenhouseData) (ghId : Nat)
    (r : Bool × List GreenhouseData) (f : GreenhouseData → GreenhouseData) : Prop :=
  (getGreenhouse gs ghId = none → r = (false, gs)) ∧
  (∀ g0, getGreenhouse gs ghId = some g0 →
    r.1 = true ∧
    getGreenhouse r.2 ghId = some (f g0) ∧
    (∀ g, g ≠ ghId → getGreenhouse r.2 g = getGreenhouse gs g))

/-! Field-preservation lemmas for the growth-engine steps. -/

lemma waterStep_plantCount (t : PlantTable) (h : GreenhouseData) :
    (waterStep t h).plantCount = t.plantCount := by
  unfold waterStep; split_ifs <;> rfl

lemma waterStep_plantSize (t : PlantTable) (h : GreenhouseData) :
    (waterStep t h).plantSize = t.plantSize := by
  unfold waterStep; split_ifs <;> rfl

lemma waterStep_plantedDate (t : PlantTable) (h : GreenhouseData) :
    (waterStep t h).plantedDate = t.plantedDate := by
  unfold waterStep; split_ifs <;> rfl

lemma waterStep_moisture_bounds (t : PlantTable) (h : GreenhouseData)
    (h4 : 0 ≤ t.soilMoisture) (h5 : t.soilMoisture ≤ 100) :
    0 ≤ (waterStep t h).soilMoisture ∧ (waterStep t h).soilMoisture ≤ 100 := by
  unfold waterStep WATER_INCREASE_RATE EVAPORATION_RATE
  split_ifs <;> dsimp only <;> constructor
  · exact le_min (by norm_num) (by linarith)
  · exact min_le_left _ _
  · exact le_min (by norm_num) (by linarith)
  · exact min_le_left _ _
  · exact le_max_left _ _
  · refine max_le (by norm_num) ?_
    have hev : 0 ≤ (6:ℚ)/10 * max 0 ((h.temperature - 10) / 40) *
        max 0 (1 - h.humidity / 100) := by
      have a1 : (0:ℚ) ≤ max 0 ((h.temperature - 10) / 40) := le_max_left _ _
      have a2 : (0:ℚ) ≤ max 0 (1 - h.humidity / 100) := le_max_left _ _
      positivity
    nlinarith [hev]

lemma waterStep_moisture_le (t : PlantTable) (h : GreenhouseData)
    (h5 : t.soilMoisture ≤ 100) :
    (waterStep t h).soilMoisture ≤ 100 := by
  unfold waterStep WATER_INCREASE_RATE EVAPORATION_RATE
  split_ifs <;> dsimp only
  · exact min_le_left _ _
  · exact min_le_left _ _
  · refine max_le (by norm_num) ?_
    have a1 : (0:ℚ) ≤ max 0 ((h.temperature - 10) / 40) := le_max_left _ _
    have a2 : (0:ℚ) ≤ max 0 (1 - h.humidity / 100) := le_max_left _ _
    nlinarith

lemma waterStep_fert_bounds (t : PlantTable) (h : GreenhouseData)
    (h6 : 0 ≤ t.soilFertility) (h7 : t.soilFertility ≤ 150) :
    0 ≤ (waterStep t h).soilFertility ∧ (waterStep t h).soilFertility ≤ 150 := by
  unfold waterStep WATER_INCREASE_RATE FERTILIZER_RATE
  split_ifs <;> dsimp only
  · exact ⟨le_min (by norm_num) (by linarith), min_le_left _ _⟩
  · exact ⟨h6, h7⟩
  · exact ⟨h6, h7⟩

lemma decayStep_plantCount (t : PlantTable) :
    (decayStep t).plantCount = t.plantCount := by
  unfold decayStep; split_ifs <;> rfl

lemma decayStep_plantSize (t : PlantTable) :
    (decayStep t).plantSize = t.plantSize := by
  unfold decayStep; split_ifs <;> rfl

lemma decayStep_plantedDate (t : PlantTable) :
    (decayStep t).plantedDate = t.plantedDate := by
  unfold decayStep; split_ifs <;> rfl

lemma decayStep_soilMoisture (t : PlantTable) :
    (decayStep t).soilMoisture = t.soilMoisture := by
  unfold decayStep; split_ifs <;> rfl

lemma decayStep_fert_bounds (t : PlantTable)
    (h6 : 0 ≤ t.soilFertility) (h7 : t.soilFertility ≤ 150) :
    0 ≤ (decayStep t).soilFertility ∧ (decayStep t).soilFertility ≤ 150 := by
  unfold decayStep FERTILIZER_DECAY
  split_ifs <;> (try dsimp only)
  · exact ⟨le_max_left _ _, max_le (by norm_num) (by linarith)⟩
  · exact ⟨h6, h7⟩

lemma growthStep_plantCount (t : PlantTable) (h : GreenhouseData) :
    (growthStep t h).plantCount = t.plantCount := by
  simp only [growthStep]; split_ifs <;> rfl

lemma growthStep_plantedDate (t : PlantTable) (h : GreenhouseData) :
    (growthStep t h).plantedDate = t.plantedDate := by
  simp only [growthStep]; split_ifs <;> rfl

lemma growthStep_soilMoisture (t : PlantTable) (h : GreenhouseData) :
    (growthStep t h).soilMoisture = t.soilMoisture := by
  simp only [growthStep]; split_ifs <;> rfl

lemma growthStep_soilFertility (t : PlantTable) (h : GreenhouseData) :
    (growthStep t h).soilFertility = t.soilFertility := by
  simp only [growthStep]; split_ifs <;> rfl

lemma growthStep_size_le (t : PlantTable) (h : GreenhouseData) :
    t.plantSize ≤ (growthStep t h).plantSize := by
  simp only [growthStep]
  split_ifs with hg
  · dsimp only; linarith
  · exact le_refl _

lemma droughtStep_plantSize (t : PlantTable) :
    (droughtStep t).plantSize = t.plantSize := by
  unfold droughtStep; split_ifs <;> rfl

lemma droughtStep_plantedDate (t : PlantTable) :
    (droughtStep t).plantedDate = t.plantedDate := by
  unfold droughtStep; split_ifs <;> rfl

lemma droughtStep_soilMoisture (t : PlantTable) :
    (droughtStep t).soilMoisture = t.soilMoisture := by
  unfold droughtStep; split_ifs <;> rfl

lemma droughtStep_soilFertility (t : PlantTable) :
    (droughtStep t).soilFertility = t.soilFertility := by
  unfold droughtStep; split_ifs <;> rfl

lemma droughtStep_count (t : PlantTable) (h1 : 0 ≤ t.plantCount) :
    0 ≤ (droughtStep t).plantCount ∧ (droughtStep t).plantCount ≤ t.plantCount := by
  unfold droughtStep
  split_ifs <;> (try dsimp only)
  · have hd : (0:ℚ) ≤ ((⌈t.plantCount * (1/100)⌉ : ℤ) : ℚ) := by
      have : (0:ℤ) ≤ ⌈t.plantCount * (1/100)⌉ := Int.ceil_nonneg (by positivity)
      exact_mod_cast this
    exact ⟨le_max_left _ _, max_le h1 (by linarith)⟩
  · exact ⟨h1, le_refl _⟩

lemma replantTable_fert_bounds (t : PlantTable) (day : Int) (h6 : 0 ≤ t.soilFertility) :
    0 ≤ (replantTable t day).soilFertility ∧ (replantTable t day).soilFertility ≤ 150 := by
  unfold replantTable
  exact ⟨le_min (by norm_num) (by linarith), le_trans (min_le_left _ _) (by norm_num)⟩

lemma replantCheckStep_count_ge (t : PlantTable) (day : Int) :
    24 ≤ (replantCheckStep t day).plantCount := by
  unfold replantCheckStep replantTable
  split_ifs with hlt
  · norm_num
  · exact le_of_not_lt hlt

lemma replantCheckStep_count_le (t : PlantTable) (day : Int) (h2 : t.plantCount ≤ 480) :
    (replantCheckStep t day).plantCount ≤ 480 := by
  unfold replantCheckStep replantTable
  split_ifs
  · norm_num
  · exact h2

lemma replantCheckStep_soilMoisture (t : PlantTable) (day : Int) :
    (replantCheckStep t day).soilMoisture = t.soilMoisture := by
  unfold replantCheckStep replantTable; split_ifs <;> rfl

lemma replantCheckStep_size_nonneg (t : PlantTable) (day : Int) (h3 : 0 ≤ t.plantSize) :
    0 ≤ (replantCheckStep t day).plantSize := by
  unfold replantCheckStep replantTable
  split_ifs
  · norm_num
  · exact h3

lemma replantCheckStep_size_pos (t : PlantTable) (day : Int) (h3 : 0 < t.plantSize) :
    0 < (replantCheckStep t day).plantSize := by
  unfold replantCheckStep replantTable
  split_ifs
  · norm_num
  · exact h3

lemma replantCheckStep_fert_bounds (t : PlantTable) (day : Int)
    (h6 : 0 ≤ t.soilFertility) (h7 : t.soilFertility ≤ 150) :
    0 ≤ (replantCheckStep t day).soilFertility ∧
      (replantCheckStep t day).soilFertility ≤ 150 := by
  unfold replantCheckStep
  split_ifs
  · exact replantTable_fert_bounds t day h6
  · exact ⟨h6, h7⟩

lemma harvestPlants_count_ge (t : PlantTable) (day : Int) :
    24 ≤ (harvestPlants t day).plantCount := by
  simp only [harvestPlants, replantTable]
  split_ifs with hlt
  · norm_num
  · simp only at hlt ⊢
    exact le_of_not_lt hlt

lemma harvestPlants_count_le (t : PlantTable) (day : Int)
    (h1 : 0 ≤ t.plantCount) (h2 : t.plantCount ≤ 480) :
    (harvestPlants t day).plantCount ≤ 480 := by
  simp only [harvestPlants, replantTable]
  split_ifs
  · norm_num
  · dsimp only
    have hfl : (0:ℚ) ≤ ((⌊t.plantCount * (95/100)⌋ : ℤ) : ℚ) := by
      have : (0:ℤ) ≤ ⌊t.plantCount * (95/100)⌋ := Int.floor_nonneg.mpr (by positivity)
      exact_mod_cast this
    linarith

lemma harvestPlants_soilMoisture (t : PlantTable) (day : Int) :
    (harvestPlants t day).soilMoisture = t.soilMoisture := by
  simp only [harvestPlants, replantTable]; split_ifs <;> rfl

lemma harvestPlants_size_nonneg (t : PlantTable) (day : Int) (h3 : 0 ≤ t.plantSize) :
    0 ≤ (harvestPlants t day).plantSize := by
  simp only [harvestPlants, replantTable]
  split_ifs
  · norm_num
  · exact h3

lemma harvestPlants_size_pos (t : PlantTable) (day : Int) (h3 : 0 < t.plantSize) :
    0 < (harvestPlants t day).plantSize := by
  simp only [harvestPlants, replantTable]
  split_ifs
  · norm_num
  · exact h3

lemma harvestPlants_fert_bounds (t : PlantTable) (day : Int)
    (h6 : 0 ≤ t.soilFertility) (h7 : t.soilFertility ≤ 150) :
    0 ≤ (harvestPlants t day).soilFertility ∧ (harvestPlants t day).soilFertility ≤ 150 := by
  simp only [harvestPlants, replantTable]
  split_ifs
  · exact ⟨le_min (by norm_num) (by linarith), le_trans (min_le_left _ _) (by norm_num)⟩
  · exact ⟨h6, h7⟩

lemma harvestCheckStep_count_ge (t : PlantTable) (day : Int) (h : 24 ≤ t.plantCount) :
    24 ≤ (harvestCheckStep t day).plantCount := by
  unfold harvestCheckStep
  split_ifs
  · exact harvestPlants_count_ge t day
  · exact h

lemma harvestCheckStep_count_le (t : PlantTable) (day : Int)
    (h1 : 0 ≤ t.plantCount) (h2 : t.plantCount ≤ 480) :
    (harvestCheckStep t day).plantCount ≤ 480 := by
  unfold harvestCheckStep
  split_ifs
  · exact harvestPlants_count_le t day h1 h2
  · exact h2

lemma harvestCheckStep_count_nonneg (t : PlantTable) (day : Int) (h1 : 0 ≤ t.plantCount) :
    0 ≤ (harvestCheckStep t day).plantCount := by
  unfold harvestCheckStep
  split_ifs
  · exact le_trans (by norm_num) (harvestPlants_count_ge t day)
  · exact h1

lemma harvestCheckStep_soilMoisture (t : PlantTable) (day : Int) :
    (harvestCheckStep t day).soilMoisture = t.soilMoisture := by
  unfold harvestCheckStep
  split_ifs
  · exact harvestPlants_soilMoisture t day
  · rfl

lemma harvestCheckStep_size_nonneg (t : PlantTable) (day : Int) (h3 : 0 ≤ t.plantSize) :
    0 ≤ (harvestCheckStep t day).plantSize := by
  unfold harvestCheckStep
  split_ifs
  · exact harvestPlants_size_nonneg t day h3
  · exact h3

lemma harvestCheckStep_size_pos (t : PlantTable) (day : Int) (h3 : 0 < t.plantSize) :
    0 < (harvestCheckStep t day).plantSize := by
  unfold harvestCheckStep
  split_ifs
  · exact harvestPlants_size_pos t day h3
  · exact h3

lemma harvestCheckStep_fert_bounds (t : PlantTable) (day : Int)
    (h6 : 0 ≤ t.soilFertility) (h7 : t.soilFertility ≤ 150) :
    0 ≤ (harvestCheckStep t day).soilFertility ∧
      (harvestCheckStep t day).soilFertility ≤ 150 := by
  unfold harvestCheckStep
  split_ifs
  · exact harvestPlants_fert_bounds t day h6 h7
  · exact ⟨h6, h7⟩

lemma calculateMaxPlants_ge_24 (s : ℚ) : (24:ℚ) ≤ calculateMaxPlants s := by
  unfold calculateMaxPlants
  split_ifs
  · norm_num
  · exact le_max_left _ _

lemma crowdingStep_plantSize (t : PlantTable) :
    (crowdingStep t).plantSize = t.plantSize := by
  simp only [crowdingStep]; split_ifs <;> rfl

lemma crowdingStep_plantedDate (t : PlantTable) :
    (crowdingStep t).plantedDate = t.plantedDate := by
  simp only [crowdingStep]; split_ifs <;> rfl

lemma crowdingStep_soilMoisture (t : PlantTable) :
    (crowdingStep t).soilMoisture = t.soilMoisture := by
  simp only [crowdingStep]; split_ifs <;> rfl

lemma crowdingStep_soilFertility (t : PlantTable) :
    (crowdingStep t).soilFertility = t.soilFertility := by
  simp only [crowdingStep]; split_ifs <;> rfl

lemma crowdingStep_count_le (t : PlantTable) :
    (crowdingStep t).plantCount ≤ t.plantCount := by
  simp only [crowdingStep]
  split_ifs with hgt
  · exact le_of_lt hgt
  · exact le_refl _

lemma crowdingStep_count_ge (t : PlantTable) (h : 24 ≤ t.plantCount) :
    24 ≤ (crowdingStep t).plantCount := by
  simp only [crowdingStep]
  split_ifs
  · exact calculateMaxPlants_ge_24 _
  · exact h

/-- `tableGrowthSteps` written as the composition of its blocks. -/
lemma tableGrowthSteps_def (t : PlantTable) (h : GreenhouseData) (day : Int) :
    tableGrowthSteps t h day =
      crowdingStep (harvestCheckStep
        { replantCheckStep (droughtStep (growthStep (decayStep (waterStep t h)) h)) day
          with temperature := h.temperature } day) := rfl

lemma mirror_plantCount (x : PlantTable) (τ : ℚ) :
    ({ x with temperature := τ }).plantCount = x.plantCount := rfl

lemma mirror_plantSize (x : PlantTable) (τ : ℚ) :
    ({ x with temperature := τ }).plantSize = x.plantSize := rfl

lemma mirror_soilMoisture (x : PlantTable) (τ : ℚ) :
    ({ x with temperature := τ }).soilMoisture = x.soilMoisture := rfl

lemma mirror_soilFertility (x : PlantTable) (τ : ℚ) :
    ({ x with temperature := τ }).soilFertility = x.soilFertility := rfl

/-- After the growth steps the population is always at least the
24-plant replant threshold. -/
lemma tableGrowthSteps_count_ge (t : PlantTable) (h : GreenhouseData) (day : Int) :
    24 ≤ (tableGrowthSteps t h day).plantCount := by
  rw [tableGrowthSteps_def]
  apply crowdingStep_count_ge
  apply harvestCheckStep_count_ge
  rw [mirror_plantCount]
  exact replantCheckStep_count_ge _ _

lemma tableGrowthSteps_count_le (t : PlantTable) (h : GreenhouseData) (day : Int)
    (h1 : 0 ≤ t.plantCount) (h2 : t.plantCount ≤ 480) :
    (tableGrowthSteps t h day).plantCount ≤ 480 := by
  rw [tableGrowthSteps_def]
  have e3 : (growthStep (decayStep (waterStep t h)) h).plantCount = t.plantCount := by
    rw [growthStep_plantCount, decayStep_plantCount, waterStep_plantCount]
  have hd := droughtStep_count (growthStep (decayStep (waterStep t h)) h) (by rw [e3]; exact h1)
  have hr : (replantCheckStep (droughtStep (growthStep (decayStep (waterStep t h)) h))
      day).plantCount ≤ 480 := by
    apply replantCheckStep_count_le
    exact le_trans hd.2 (by rw [e3]; exact h2)
  refine le_trans (crowdingStep_count_le _) ?_
  apply harvestCheckStep_count_le
  · rw [mirror_plantCount]
    exact le_trans (by norm_num) (replantCheckStep_count_ge _ _)
  · rw [mirror_plantCount]
    exact hr

lemma tableGrowthSteps_size_nonneg (t : PlantTable) (h : GreenhouseData) (day : Int)
    (h3 : 0 ≤ t.plantSize) :
    0 ≤ (tableGrowthSteps t h day).plantSize := by
  rw [tableGrowthSteps_def, crowdingStep_plantSize]
  apply harvestCheckStep_size_nonneg
  rw [mirror_plantSize]
  apply replantCheckStep_size_nonneg
  rw [droughtStep_plantSize]
  refine le_trans ?_ (growthStep_size_le _ h)
  rw [decayStep_plantSize, waterStep_plantSize]
  exact h3

lemma tableGrowthSteps_size_pos (t : PlantTable) (h : GreenhouseData) (day : Int)
    (h3 : 0 < t.plantSize) :
    0 < (tableGrowthSteps t h day).plantSize := by
  rw [tableGrowthSteps_def, crowdingStep_plantSize]
  apply harvestCheckStep_size_pos
  rw [mirror_plantSize]
  apply replantCheckStep_size_pos
  rw [droughtStep_plantSize]
  refine lt_of_lt_of_le ?_ (growthStep_size_le _ h)
  rw [decayStep_plantSize, waterStep_plantSize]
  exact h3

/-- Only the water-management block ever touches soil moisture during the
growth steps. -/
lemma tableGrowthSteps_soilMoisture (t : PlantTable) (h : GreenhouseData) (day : Int) :
    (tableGrowthSteps t h day).soilMoisture = (waterStep t h).soilMoisture := by
  rw [tableGrowthSteps_def, crowdingStep_soilMoisture, harvestCheckStep_soilMoisture,
    mirror_soilMoisture, replantCheckStep_soilMoisture, droughtStep_soilMoisture,
    growthStep_soilMoisture, decayStep_soilMoisture]

lemma tableGrowthSteps_fert_bounds (t : PlantTable) (h : GreenhouseData) (day : Int)
    (h6 : 0 ≤ t.soilFertility) (h7 : t.soilFertility ≤ 150) :
    0 ≤ (tableGrowthSteps t h day).soilFertility ∧
      (tableGrowthSteps t h day).soilFertility ≤ 150 := by
  rw [tableGrowthSteps_def, crowdingStep_soilFertility]
  have b1 := waterStep_fert_bounds t h h6 h7
  have b2 := decayStep_fert_bounds (waterStep t h) b1.1 b1.2
  have b3 : 0 ≤ (droughtStep (growthStep (decayStep (waterStep t h)) h)).soilFertility ∧
      (droughtStep (growthStep (decayStep (waterStep t h)) h)).soilFertility ≤ 150 := by
    rw [droughtStep_soilFertility, growthStep_soilFertility]
    exact b2
  have b4 := replantCheckStep_fert_bounds
    (droughtStep (growthStep (decayStep (waterStep t h)) h)) day b3.1 b3.2
  apply harvestCheckStep_fert_bounds
  · rw [mirror_soilFertility]; exact b4.1
  · rw [mirror_soilFertility]; exact b4.2

/-- When the table enters the growth steps with fewer than 24 plants, the
low-population check replants it and nothing later in the tick undoes
that: the tick ends with 480 plants of size 2 planted today. -/
lemma tableGrowthSteps_replants (t : PlantTable) (h : GreenhouseData) (day : Int)
    (h1 : 0 ≤ t.plantCount) (h24 : t.plantCount < 24) :
    (tableGrowthSteps t h day).plantCount = 480 ∧
      (tableGrowthSteps t h day).plantSize = 2 ∧
      (tableGrowthSteps t h day).plantedDate = day := by
  rw [tableGrowthSteps_def]
  have e3 : (growthStep (decayStep (waterStep t h)) h).plantCount = t.plantCount := by
    rw [growthStep_plantCount, decayStep_plantCount, waterStep_plantCount]
  have hd := droughtStep_count (growthStep (decayStep (waterStep t h)) h) (by rw [e3]; exact h1)
  have hlt : (droughtStep (growthStep (decayStep (waterStep t h)) h)).plantCount < 24 :=
    lt_of_le_of_lt (by rw [← e3]; exact hd.2) h24
  have hrc : replantCheckStep (droughtStep (growthStep (decayStep (waterStep t h)) h)) day
      = replantTable (droughtStep (growthStep (decayStep (waterStep t h)) h)) day := by
    unfold replantCheckStep
    rw [if_pos hlt]
  rw [hrc]
  have hsize : ({ replantTable (droughtStep (growthStep (decayStep (waterStep t h)) h)) day
      with temperature := h.temperature } : PlantTable).plantSize = 2 := rfl
  have hcount : ({ replantTable (droughtStep (growthStep (decayStep (waterStep t h)) h)) day
      with temperature := h.temperature } : PlantTable).plantCount = 480 := rfl
  have hdate : ({ replantTable (droughtStep (growthStep (decayStep (waterStep t h)) h)) day
      with temperature := h.temperature } : PlantTable).plantedDate = day := rfl
  have hno : ¬(({ replantTable (droughtStep (growthStep (decayStep (waterStep t h)) h)) day
      with temperature := h.temperature } : PlantTable).plantSize ≥ 30 ∧
      ({ replantTable (droughtStep (growthStep (decayStep (waterStep t h)) h)) day
      with temperature := h.temperature } : PlantTable).soilMoisture ≤ 50) := by
    intro hc
    rw [hsize] at hc
    exact absurd hc.1 (by norm_num)
  have hhc : harvestCheckStep { replantTable (droughtStep (growthStep (decayStep
      (waterStep t h)) h)) day with temperature := h.temperature } day
      = { replantTable (droughtStep (growthStep (decayStep (waterStep t h)) h)) day
          with temperature := h.temperature } := by
    unfold harvestCheckStep
    rw [if_neg hno]
  rw [hhc]
  have hcs : crowdingStep { replantTable (droughtStep (growthStep (decayStep
      (waterStep t h)) h)) day with temperature := h.temperature }
      = { replantTable (droughtStep (growthStep (decayStep (waterStep t h)) h)) day
          with temperature := h.temperature } := by
    simp only [crowdingStep]
    rw [hsize, hcount]
    rw [if_neg (by norm_num [calculateMaxPlants])]
  rw [hcs]
  exact ⟨hcount, hsize, hdate⟩

/-- C9: the crowding step (capacity computation plus clamp of the
population to capacity) is idempotent: applying it twice with no other
mutation yields the same population as applying it once. -/
theorem crowding_step_idempotent (t : PlantTable) :
    crowdingStep (crowdingStep t) = crowdingStep t := by
  by_cases hgt : t.plantCount > calculateMaxPlants t.plantSize
  · have h1 : crowdingStep t = { t with plantCount := calculateMaxPlants t.plantSize } := by
      simp only [crowdingStep]
      rw [if_pos hgt]
    rw [h1]
    simp only [crowdingStep]
    have hno : ¬(({ t with plantCount := calculateMaxPlants t.plantSize } :
        PlantTable).plantCount >
        calculateMaxPlants ({ t with plantCount := calculateMaxPlants t.plantSize } :
        PlantTable).plantSize) := by
      show ¬(calculateMaxPlants t.plantSize > calculateMaxPlants t.plantSize)
      exact lt_irrefl _
    rw [if_neg hno]
  · have h1 : crowdingStep t = t := by
      simp only [crowdingStep]
      rw [if_neg hgt]
    rw [h1, h1]

/-- C10: for plant sizes up to 15 cm the computed capacity is at least the
full 480 plants, so the crowding step removes nothing from a table with at
most 480 plants; crowding can bite only above 15 cm. -/
theorem crowding_noop_small_plants :
    (∀ s : ℚ, s ≤ 15 → (480:ℚ) ≤ calculateMaxPlants s) ∧
    (∀ t : PlantTable, t.plantSize ≤ 15 → t.plantCount ≤ 480 → crowdingStep t = t) := by
  have hcap : ∀ s : ℚ, s ≤ 15 → (480:ℚ) ≤ calculateMaxPlants s := by
    intro s hs
    simp only [calculateMaxPlants, MAX_PLANT_SIZE]
    split_ifs with h2
    · norm_num
    · push_neg at h2
      have hs0 : (0:ℚ) < s := by linarith
      refine le_trans ?_ (le_max_right _ _)
      have hq : (480:ℚ) ≤ 480 / (s / 15 * (s / 15)) := by
        rw [le_div_iff₀ (by positivity)]
        nlinarith [mul_nonneg (sub_nonneg.mpr hs) (by linarith : (0:ℚ) ≤ 15 + s)]
      have hz : (480:ℤ) ≤ ⌊(480:ℚ) / (s / 15 * (s / 15))⌋ := by
        rw [Int.le_floor]
        exact_mod_cast hq
      exact_mod_cast hz
  refine ⟨hcap, ?_⟩
  intro t hs hc
  simp only [crowdingStep]
  rw [if_neg (not_lt.mpr (le_trans hc (hcap _ hs)))]

/-- Witness for C10 at plant size 14 (capacity stays ≥ 480) and at a
concrete 5 cm table with 400 plants (crowding is a no-op). -/
theorem crowding_noop_small_plants_witness :
    (480:ℚ) ≤ calculateMaxPlants 14 ∧ crowdingStep table5 = table5 := by
  constructor
  · exact crowding_noop_small_plants.1 14 (by norm_num)
  · exact crowding_noop_small_plants.2 table5 (by norm_num [table5, table0])
      (by norm_num [table5, table0])

/-- C5: after every `updateGreenhouseEnvironment` tick, for any prior
state and any inputs, the temperature lies in `[0,70]` and the humidity
lies in `[0,100]` and moreover under the 85 % ceiling (which the code
applies before the final clamps). -/
theorem env_tick_bounds (gh : GreenhouseData) (tavg : ℚ) (vs : Option ℚ) (m : ℚ) :
    0 ≤ (updateGreenhouseEnvironment gh tavg vs m).1.temperature ∧
    (updateGreenhouseEnvironment gh tavg vs m).1.temperature ≤ 70 ∧
    0 ≤ (updateGreenhouseEnvironment gh tavg vs m).1.humidity ∧
    (updateGreenhouseEnvironment gh tavg vs m).1.humidity ≤ 100 ∧
    (updateGreenhouseEnvironment gh tavg vs m).1.humidity ≤ 85 := by
  unfold updateGreenhouseEnvironment
  dsimp only
  refine ⟨le_max_left _ _, max_le (by norm_num) (min_le_left _ _),
    le_max_left _ _, max_le (by norm_num) (min_le_left _ _), ?_⟩
  refine max_le (by norm_num) (le_trans (min_le_right _ _) ?_)
  have hcap : ∀ x : ℚ, (if x > MAX_HUMIDITY then MAX_HUMIDITY else x) ≤ 85 := by
    intro x
    split_ifs with hx
    · norm_num [MAX_HUMIDITY]
    · have hle := le_of_not_lt hx
      rw [MAX_HUMIDITY] at hle
      exact hle
  exact hcap _

/-- C6: `setSimulationSpeed` succeeds exactly for multipliers in
`(0, 1000]`; on success the tick interval becomes
`max(1, baseTickIntervalMs / speed)` while the simulated day and minute
are untouched; on failure the whole state is unchanged. -/
theorem setSimulationSpeed_spec (s : ManagerState) (speed : ℚ) :
    ((setSimulationSpeed s speed).1 = true ↔ (0 < speed ∧ speed ≤ 1000)) ∧
    ((setSimulationSpeed s speed).1 = true →
      (setSimulationSpeed s speed).2.timeStep = max 1 (s.baseTimeStep / speed) ∧
      (setSimulationSpeed s speed).2.currentDay = s.currentDay ∧
      (setSimulationSpeed s speed).2.minuteOfDay = s.minuteOfDay) ∧
    ((setSimulationSpeed s speed).1 = false → (setSimulationSpeed s speed).2 = s) := by
  unfold setSimulationSpeed
  split_ifs with h
  · refine ⟨⟨fun _ => h, fun _ => rfl⟩, fun _ => ⟨rfl, rfl, rfl⟩, fun hf => ?_⟩
    exact absurd hf (by simp)
  · refine ⟨⟨fun ht => absurd ht (by simp), fun hx => absurd hx h⟩, fun ht => ?_, fun _ => rfl⟩
    exact absurd ht (by simp)

/-- Witness for C6: speed 10 at base 100 ms gives a 10 ms interval and
leaves day 5, minute 7 unchanged. -/
theorem setSimulationSpeed_spec_witness :
    (setSimulationSpeed mgr0 10).1 = true ∧
    (setSimulationSpeed mgr0 10).2.timeStep = 10 ∧
    (setSimulationSpeed mgr0 10).2.currentDay = 5 ∧
    (setSimulationSpeed mgr0 10).2.minuteOfDay = 7 := by
  have h := setSimulationSpeed_spec mgr0 10
  have htrue : (setSimulationSpeed mgr0 10).1 = true := h.1.mpr (by norm_num)
  have h2 := h.2.1 htrue
  refine ⟨htrue, ?_, h2.2.1.trans rfl, h2.2.2.trans rfl⟩
  rw [h2.1]
  norm_num [mgr0, max_def]

/-- C1 counterexample: on the harvest-scenario table (`plantSize = 31`,
`soilMoisture = 40`, `plantCount = 480`, benign environment) one tick does
NOT end with `plantCount = 480, plantSize = 2`: harvesting removes
`floor(480 × 0.95) = 456` plants, leaving exactly 24, and the replant
threshold is the strict comparison `plantCount < 24`, so no replant fires. -/
theorem harvest_scenario_no_replant :
    ¬((updateTableData table0 house0 0 100).1.plantCount = 480 ∧
      (updateTableData table0 house0 0 100).1.plantSize = 2) := by
  norm_num [updateTableData, table0, house0, tableGrowthSteps, waterStep, decayStep,
    growthStep, droughtStep, replantCheckStep, harvestCheckStep, crowdingStep,
    replantTable, harvestPlants, calculateMoistureFactor, calculateFertilityFactor,
    calculateLightFactor, calculateTemperatureFactor, calculateMaxPlants,
    BASE_GROWTH_RATE, OPTIMAL_TEMP, DEATH_TEMP, OPTIMAL_MOISTURE_MIN,
    OPTIMAL_MOISTURE_MAX, WATER_INCREASE_RATE, EVAPORATION_RATE, FERTILIZER_RATE,
    OVER_FERTILIZER_DEATH, FERTILIZER_DECAY, MAX_PLANT_SIZE, min_def, max_def]

/-- C1 (amended): the harvest-scenario tick harvests 456 of the 480
plants, the remaining 24 plants are NOT below the 24-plant threshold, so
no replant fires: the tick ends with `plantCount = 24` and the plants
still above 30 cm (not reset to 2 cm seedlings). -/
theorem harvest_scenario_result :
    (updateTableData table0 house0 0 100).1.plantCount = 24 ∧
    30 < (updateTableData table0 house0 0 100).1.plantSize := by
  norm_num [updateTableData, table0, house0, tableGrowthSteps, waterStep, decayStep,
    growthStep, droughtStep, replantCheckStep, harvestCheckStep, crowdingStep,
    replantTable, harvestPlants, calculateMoistureFactor, calculateFertilityFactor,
    calculateLightFactor, calculateTemperatureFactor, calculateMaxPlants,
    BASE_GROWTH_RATE, OPTIMAL_TEMP, DEATH_TEMP, OPTIMAL_MOISTURE_MIN,
    OPTIMAL_MOISTURE_MAX, WATER_INCREASE_RATE, EVAPORATION_RATE, FERTILIZER_RATE,
    OVER_FERTILIZER_DEATH, FERTILIZER_DECAY, MAX_PLANT_SIZE, min_def, max_def]

/-- C2 counterexample: with the fan on and only 15 minutes of ventilation
elapsed (below the 30-minute exchange time), the humidity correction is
already applied: humidity drops from 80 to 79.5 instead of staying at 80
as the claim requires. -/
theorem vent_humidity_moves_before_30 :
    ¬((updateGreenhouseEnvironment gh2 10 (some 0) 15).1.humidity = 80) := by
  norm_num [updateGreenhouseEnvironment, gh2, MAX_HUMIDITY, VENTILATION_EXCHANGE_TIME,
    LIGHT_HEAT_EFFECT, min_def, max_def]

/-- C2 (amended): while the fan is on, the temperature correction (10 % of
the gap to the day's average outside temperature) applies only once the
elapsed ventilation time reaches 30 minutes, but the humidity correction
toward the fixed 60 % outside reference is applied on every tick, scaled
by `(elapsed / 30) × 0.05` of the remaining gap (the range hypotheses keep
the final clamps from interfering). -/
theorem vent_correction (gh : GreenhouseData) (tavg vs m : ℚ)
    (hfan : gh.fan = true)
    (hh1 : 60 ≤ gh.humidity) (hh2 : gh.humidity ≤ 85)
    (hd0 : 0 ≤ m - vs) (hd1 : m - vs ≤ 600)
    (ht1 : 0 ≤ gh.temperature) (ht2 : gh.temperature ≤ 70)
    (ha1 : 0 ≤ tavg) (ha2 : tavg ≤ 70) :
    (updateGreenhouseEnvironment gh tavg (some vs) m).1.humidity
      = gh.humidity - (gh.humidity - 60) * ((m - vs) / 30) * (5/100) ∧
    (updateGreenhouseEnvironment gh tavg (some vs) m).1.temperature
      = if m - vs ≥ 30 then gh.temperature - (gh.temperature - tavg) * (1/10)
        else gh.temperature := by
  have hfac0 : (0:ℚ) ≤ (gh.humidity - 60) * ((m - vs) / 30) * (5/100) :=
    mul_nonneg (mul_nonneg (by linarith) (by linarith)) (by norm_num)
  have hfac1 : (gh.humidity - 60) * ((m - vs) / 30) * (5/100) ≤ gh.humidity - 60 := by
    nlinarith [mul_nonneg (by linarith : (0:ℚ) ≤ gh.humidity - 60)
      (by linarith : (0:ℚ) ≤ 600 - (m - vs))]
  constructor
  · simp only [updateGreenhouseEnvironment, hfan, if_true, Option.getD_some,
      VENTILATION_EXCHANGE_TIME, MAX_HUMIDITY]
    rw [if_neg (not_lt.mpr (by linarith))]
    rw [min_eq_right (by linarith), max_eq_right (by linarith)]
  · simp only [updateGreenhouseEnvironment, hfan, if_true, Option.getD_some,
      VENTILATION_EXCHANGE_TIME, MAX_HUMIDITY]
    by_cases hc : m - vs ≥ 30
    · rw [if_pos hc, min_eq_right (by linarith), max_eq_right (by linarith)]
    · rw [if_neg hc, min_eq_right (by linarith), max_eq_right (by linarith)]

/-- Witness for C2: fan on since minute 0, now minute 40 (elapsed 40 ≥ 30):
temperature 20 moves to 19 (10 % of the gap to `tavg = 10`) and humidity 80
moves to `80 − 20 × (40/30) × 0.05 = 236/3`. -/
theorem vent_correction_witness :
    (updateGreenhouseEnvironment gh2 10 (some 0) 40).1.humidity = 236/3 ∧
    (updateGreenhouseEnvironment gh2 10 (some 0) 40).1.temperature = 19 := by
  have h := vent_correction gh2 10 0 40 rfl (by norm_num [gh2]) (by norm_num [gh2])
    (by norm_num) (by norm_num) (by norm_num [gh2]) (by norm_num [gh2])
    (by norm_num) (by norm_num)
  constructor
  · rw [h.1]
    norm_num [gh2]
  · rw [h.2]
    norm_num [gh2]

/-- C3 counterexample: a dead table (`plantCount = 0`, which is below 24)
is left untouched by the tick (early exit), so it does not end with 480
plants of size 2 planted today. -/
theorem dead_table_not_replanted :
    ¬((updateTableData deadTable house0 0 101).1.plantCount = 480 ∧
      (updateTableData deadTable house0 0 101).1.plantSize = 2 ∧
      (updateTableData deadTable house0 0 101).1.plantedDate = 101) := by
  norm_num [updateTableData, deadTable, table0]

/-- C3 (amended): for every LIVE table (`plantCount > 0`, `plantSize > 0`)
with fewer than 24 plants, provided the greenhouse is not above the 60 °C
death temperature and the over-fertilization death does not fire this
tick, one engine tick ends with `plantCount = 480`, `plantSize = 2` and
`plantedDate` equal to the current simulated day. -/
theorem replant_fixed_point (t : PlantTable) (h : GreenhouseData) (c : Nat) (day : Int)
    (hc0 : 0 < t.plantCount) (hc24 : t.plantCount < 24) (hs : 0 < t.plantSize)
    (ht : h.temperature ≤ DEATH_TEMP)
    (hof : 100 < t.soilFertility → c + 1 < OVER_FERTILIZER_DEATH) :
    (updateTableData t h c day).1.plantCount = 480 ∧
    (updateTableData t h c day).1.plantSize = 2 ∧
    (updateTableData t h c day).1.plantedDate = day := by
  have hmain := tableGrowthSteps_replants t h day (le_of_lt hc0) hc24
  have g1 : ¬(t.plantCount ≤ 0 ∨ t.plantSize ≤ 0) := by
    push_neg
    exact ⟨hc0, hs⟩
  have g2 : ¬(h.temperature > DEATH_TEMP) := not_lt.mpr ht
  unfold updateTableData
  rw [if_neg g1, if_neg g2]
  by_cases g3 : t.soilFertility > 100
  · rw [if_pos g3]
    dsimp only
    rw [if_neg (not_le.mpr (hof g3))]
    exact hmain
  · rw [if_neg g3]
    exact hmain

/-- Witness for C3 (amended): a live 10-plant table replants to 480 plants
of 2 cm with `plantedDate = 123`. -/
theorem replant_fixed_point_witness :
    (updateTableData smallTable house0 0 123).1.plantCount = 480 ∧
    (updateTableData smallTable house0 0 123).1.plantSize = 2 ∧
    (updateTableData smallTable house0 0 123).1.plantedDate = 123 := by
  exact replant_fixed_point smallTable house0 0 123
    (by norm_num [smallTable, table0]) (by norm_num [smallTable, table0])
    (by norm_num [smallTable, table0]) (by norm_num [house0, DEATH_TEMP])
    (by intro hcon; norm_num [smallTable, table0] at hcon)

/-- C8: for a live table under the 60 °C death threshold, the
over-fertilization counter behaves as claimed: with fertility ≤ 100 the
counter resets to zero (non-sticky); with fertility > 100 and fewer than
nine prior consecutive over-fertilized minutes the counter increments and
the table stays alive; on the tenth consecutive over-fertilized minute
(counter + 1 ≥ 10) population and size are forced to 0 and the counter is
cleared — so death happens exactly on the 10th consecutive tick and an
earlier drop to ≤ 100 prevents it. -/
theorem over_fert_death_rule (t : PlantTable) (h : GreenhouseData) (c : Nat) (day : Int)
    (ha : 0 < t.plantCount) (hb : 0 < t.plantSize)
    (ht : h.temperature ≤ DEATH_TEMP) :
    (t.soilFertility ≤ 100 → (updateTableData t h c day).2 = 0) ∧
    (100 < t.soilFertility → c + 1 < OVER_FERTILIZER_DEATH →
      (updateTableData t h c day).2 = c + 1 ∧
      0 < (updateTableData t h c day).1.plantCount ∧
      0 < (updateTableData t h c day).1.plantSize) ∧
    (100 < t.soilFertility → OVER_FERTILIZER_DEATH ≤ c + 1 →
      (updateTableData t h c day).1.plantCount = 0 ∧
      (updateTableData t h c day).1.plantSize = 0 ∧
      (updateTableData t h c day).2 = 0) := by
  have g1 : ¬(t.plantCount ≤ 0 ∨ t.plantSize ≤ 0) := by
    push_neg
    exact ⟨ha, hb⟩
  have g2 : ¬(h.temperature > DEATH_TEMP) := not_lt.mpr ht
  refine ⟨?_, ?_, ?_⟩
  · intro hf
    unfold updateTableData
    rw [if_neg g1, if_neg g2, if_neg (not_lt.mpr hf)]
  · intro hf hlt
    unfold updateTableData
    rw [if_neg g1, if_neg g2, if_pos hf]
    dsimp only
    rw [if_neg (not_le.mpr hlt)]
    exact ⟨rfl, lt_of_lt_of_le (by norm_num) (tableGrowthSteps_count_ge t h day),
      tableGrowthSteps_size_pos t h day hb⟩
  · intro hf hge
    unfold updateTableData
    rw [if_neg g1, if_neg g2, if_pos hf]
    dsimp only
    rw [if_pos hge]
    exact ⟨rfl, rfl, rfl⟩

/-- Witness for C8 at fertility 110: with 9 prior over-fertilized minutes
the tick kills the table and clears the counter, while with 3 prior
minutes the counter merely increments to 4 and the table stays alive. -/
theorem over_fert_death_rule_witness :
    ((updateTableData overFertTable house0 9 100).1.plantCount = 0 ∧
      (updateTableData overFertTable house0 9 100).2 = 0) ∧
    ((updateTableData overFertTable house0 3 100).2 = 4 ∧
      0 < (updateTableData overFertTable house0 3 100).1.plantCount) := by
  have h9 := over_fert_death_rule overFertTable house0 9 100
    (by norm_num [overFertTable, table0]) (by norm_num [overFertTable, table0])
    (by norm_num [house0, DEATH_TEMP])
  have h3 := over_fert_death_rule overFertTable house0 3 100
    (by norm_num [overFertTable, table0]) (by norm_num [overFertTable, table0])
    (by norm_num [house0, DEATH_TEMP])
  have hf : (100:ℚ) < overFertTable.soilFertility := by norm_num [overFertTable, table0]
  have d9 := h9.2.2 hf (by norm_num [OVER_FERTILIZER_DEATH])
  have d3 := h3.2.1 hf (by norm_num [OVER_FERTILIZER_DEATH])
  exact ⟨⟨d9.1, d9.2.2⟩, ⟨d3.1, d3.2.1⟩⟩

/-- C4: one `updateTableData` tick preserves the table-state invariant
`0 ≤ plantCount ≤ 480 ∧ 0 ≤ plantSize ∧ 0 ≤ soilMoisture ≤ 100 ∧
0 ≤ soilFertility ≤ 150`, for any greenhouse environment input, any
over-fertilization counter and any current day. -/
theorem table_tick_invariant (t : PlantTable) (h : GreenhouseData) (c : Nat) (day : Int)
    (h1 : 0 ≤ t.plantCount) (h2 : t.plantCount ≤ 480) (h3 : 0 ≤ t.plantSize)
    (h4 : 0 ≤ t.soilMoisture) (h5 : t.soilMoisture ≤ 100)
    (h6 : 0 ≤ t.soilFertility) (h7 : t.soilFertility ≤ 150) :
    0 ≤ (updateTableData t h c day).1.plantCount ∧
    (updateTableData t h c day).1.plantCount ≤ 480 ∧
    0 ≤ (updateTableData t h c day).1.plantSize ∧
    0 ≤ (updateTableData t h c day).1.soilMoisture ∧
    (updateTableData t h c day).1.soilMoisture ≤ 100 ∧
    0 ≤ (updateTableData t h c day).1.soilFertility ∧
    (updateTableData t h c day).1.soilFertility ≤ 150 := by
  have hgrow : 0 ≤ (tableGrowthSteps t h day).plantCount ∧
      (tableGrowthSteps t h day).plantCount ≤ 480 ∧
      0 ≤ (tableGrowthSteps t h day).plantSize ∧
      0 ≤ (tableGrowthSteps t h day).soilMoisture ∧
      (tableGrowthSteps t h day).soilMoisture ≤ 100 ∧
      0 ≤ (tableGrowthSteps t h day).soilFertility ∧
      (tableGrowthSteps t h day).soilFertility ≤ 150 := by
    refine ⟨le_trans (by norm_num) (tableGrowthSteps_count_ge t h day),
      tableGrowthSteps_count_le t h day h1 h2,
      tableGrowthSteps_size_nonneg t h day h3, ?_, ?_,
      (tableGrowthSteps_fert_bounds t h day h6 h7).1,
      (tableGrowthSteps_fert_bounds t h day h6 h7).2⟩
    · rw [tableGrowthSteps_soilMoisture]
      exact (waterStep_moisture_bounds t h h4 h5).1
    · rw [tableGrowthSteps_soilMoisture]
      exact (waterStep_moisture_bounds t h h4 h5).2
  unfold updateTableData
  dsimp only
  split_ifs
  · exact ⟨h1, h2, h3, h4, h5, h6, h7⟩
  · exact ⟨le_refl 0, by norm_num, le_refl 0, h4, h5, h6, h7⟩
  · exact ⟨le_refl 0, by norm_num, le_refl 0, h4, h5, h6, h7⟩
  · exact hgrow
  · exact hgrow

/-- Witness for C4 at the harvest-scenario table and environment: the
post-tick state satisfies all four bounds. -/
theorem table_tick_invariant_witness :
    0 ≤ (updateTableData table0 house0 0 100).1.plantCount ∧
    (updateTableData table0 house0 0 100).1.plantCount ≤ 480 ∧
    0 ≤ (updateTableData table0 house0 0 100).1.plantSize ∧
    0 ≤ (updateTableData table0 house0 0 100).1.soilMoisture ∧
    (updateTableData table0 house0 0 100).1.soilMoisture ≤ 100 ∧
    0 ≤ (updateTableData table0 house0 0 100).1.soilFertility ∧
    (updateTableData table0 house0 0 100).1.soilFertility ≤ 150 :=
  table_tick_invariant table0 house0 0 100
    (by norm_num [table0]) (by norm_num [table0]) (by norm_num [table0])
    (by norm_num [table0]) (by norm_num [table0]) (by norm_num [table0])
    (by norm_num [table0])

lemma updateFirst_none_iff {α : Type} (k : α → Nat) (K : Nat) (f : α → α) (xs : List α) :
    updateFirst (fun a => k a = K) f xs = none ↔ xs.find? (fun a => k a = K) = none := by
  induction xs with
  | nil => simp [updateFirst]
  | cons x xs ih =>
    by_cases hx : k x = K
    · simp [updateFirst, List.find?, hx]
    · simp [updateFirst, List.find?, hx, ih]

lemma updateFirst_key_some {α : Type} (k : α → Nat) (K : Nat) (f : α → α)
    (hk : ∀ a, k (f a) = k a) (xs : List α) (x : α)
    (hx : xs.find? (fun a => k a = K) = some x) :
    ∃ ys, updateFirst (fun a => k a = K) f xs = some ys ∧
      ys.find? (fun a => k a = K) = some (f x) ∧
      ∀ i, i ≠ K → ys.find? (fun a => k a = i) = xs.find? (fun a => k a = i) := by
  induction xs with
  | nil => simp [List.find?] at hx
  | cons y ys ih =>
    by_cases hy : k y = K
    · have hxy : y = x := by simpa [List.find?, hy] using hx
      subst hxy
      refine ⟨f y :: ys, ?_, ?_, ?_⟩
      · simp [updateFirst, hy]
      · simp [List.find?, hk y, hy]
      · intro i hi
        have hKi : ¬(K = i) := fun hc => hi (hc.symm)
        simp [List.find?, hk y, hy, hKi]
    · have hx2 : ys.find? (fun a => k a = K) = some x := by
        simpa [List.find?, hy] using hx
      obtain ⟨zs, hz1, hz2, hz3⟩ := ih hx2
      refine ⟨y :: zs, ?_, ?_, ?_⟩
      · simp [updateFirst, hy, hz1]
      · simp [List.find?, hy, hz2]
      · intro i hi
        by_cases hyi : k y = i
        · simp [List.find?, hyi]
        · simp [List.find?, hyi, hz3 i hi]

lemma updGreenhouseTable_none (gs : List GreenhouseData) (ghId tableId : Nat)
    (f : PlantTable → PlantTable) (h : getTable gs ghId tableId = none) :
    updGreenhouseTable gs ghId tableId f = none := by
  induction gs with
  | nil => simp [updGreenhouseTable]
  | cons g rest ih =>
    by_cases hg : g.id = ghId
    · have htab : g.tables.find? (fun t => t.id = tableId) = none := by
        simpa [getTable, getGreenhouse, List.find?, hg] using h
      have hupd := (updateFirst_none_iff (fun t : PlantTable => t.id) tableId f g.tables).mpr htab
      simp [updGreenhouseTable, hg, hupd]
    · have h2 : getTable rest ghId tableId = none := by
        simpa [getTable, getGreenhouse, List.find?, hg] using h
      simp [updGreenhouseTable, hg, ih h2]

lemma updGreenhouseTable_some (gs : List GreenhouseData) (ghId tableId : Nat)
    (f : PlantTable → PlantTable) (hid : ∀ t, (f t).id = t.id)
    (x : PlantTable) (hx : getTable gs ghId tableId = some x) :
    ∃ gs2, updGreenhouseTable gs ghId tableId f = some gs2 ∧
      getTable gs2 ghId tableId = some (f x) ∧
      (∀ g i, ¬(g = ghId ∧ i = tableId) → getTable gs2 g i = getTable gs g i) ∧
      (∀ g, (getGreenhouse gs2 g).map ghEnvFields = (getGreenhouse gs g).map ghEnvFields) := by
  induction gs with
  | nil => simp [getTable, getGreenhouse] at hx
  | cons g rest ih =>
    by_cases hg : g.id = ghId
    · have htab : g.tables.find? (fun t => t.id = tableId) = some x := by
        simpa [getTable, getGreenhouse, List.find?, hg] using hx
      obtain ⟨ys, hy1, hy2, hy3⟩ :=
        updateFirst_key_some (fun t : PlantTable => t.id) tableId f hid g.tables x htab
      refine ⟨{ g with tables := ys } :: rest, ?_, ?_, ?_, ?_⟩
      · simp [updGreenhouseTable, hg, hy1]
      · simp [getTable, getGreenhouse, List.find?, hg, hy2]
      · intro g2 i hgi
        by_cases hq : g.id = g2
        · have hi : i ≠ tableId := by
            rcases not_and_or.mp hgi with hL | hR
            · exact absurd (by rw [← hq, hg]) hL
            · exact hR
          simp [getTable, getGreenhouse, List.find?, hq, hy3 i hi]
        · simp [getTable, getGreenhouse, List.find?, hq]
      · intro g2
        by_cases hq : g.id = g2
        · simp [getGreenhouse, List.find?, hq, ghEnvFields]
        · simp [getGreenhouse, List.find?, hq]
    · have hx2 : getTable rest ghId tableId = some x := by
        simpa [getTable, getGreenhouse, List.find?, hg] using hx
      obtain ⟨gs2, hz1, hz2, hz3, hz4⟩ := ih hx2
      refine ⟨g :: gs2, ?_, ?_, ?_, ?_⟩
      · simp [updGreenhouseTable, hg, hz1]
      · simpa [getTable, getGreenhouse, List.find?, hg] using hz2
      · intro g2 i hgi
        by_cases hq : g.id = g2
        · simp [getTable, getGreenhouse, List.find?, hq]
        · have := hz3 g2 i hgi
          simpa [getTable, getGreenhouse, List.find?, hq] using this
      · intro g2
        by_cases hq : g.id = g2
        · simp [getGreenhouse, List.find?, hq]
        · have := hz4 g2
          simpa [getGreenhouse, List.find?, hq] using this


lemma tableSetter_spec (gs : List GreenhouseData) (ghId tableId : Nat)
    (f : PlantTable → PlantTable) (hid : ∀ t, (f t).id = t.id) :
    mutatesExactlyTable gs ghId tableId
      (match updGreenhouseTable gs ghId tableId f with
        | some gs1 => (true, gs1)
        | none => (false, gs)) f := by
  constructor
  · intro hnone
    rw [updGreenhouseTable_none gs ghId tableId f hnone]
  · intro x hx
    obtain ⟨gs2, hz1, hz2, hz3, hz4⟩ := updGreenhouseTable_some gs ghId tableId f hid x hx
    rw [hz1]
    exact ⟨rfl, hz2, hz3, hz4⟩

lemma ghSetter_spec (gs : List GreenhouseData) (ghId : Nat)
    (f : GreenhouseData → GreenhouseData) (hid : ∀ g, (f g).id = g.id) :
    ghSetterSpec gs ghId
      (match updateFirst (fun g => g.id = ghId) f gs with
        | some gs1 => (true, gs1)
        | none => (false, gs)) f := by
  constructor
  · intro hnone
    have hfind : gs.find? (fun g => g.id = ghId) = none := hnone
    rw [(updateFirst_none_iff (fun g : GreenhouseData => g.id) ghId f gs).mpr hfind]
  · intro g0 hg0
    have hfind : gs.find? (fun g => g.id = ghId) = some g0 := hg0
    obtain ⟨ys, hy1, hy2, hy3⟩ :=
      updateFirst_key_some (fun g : GreenhouseData => g.id) ghId f hid gs g0 hfind
    rw [hy1]
    exact ⟨rfl, hy2, fun g hg => hy3 g hg⟩

/-- C7: every actuator mutator (`setTableWatering`, `setTableFertilizer`,
`setTableLight`, `setGreenhouseFan`, `setGreenhouseShading`) fails on an
unknown greenhouse/table id and on an out-of-range value (shading outside
`[0,100]`, lumens outside `[0,2000]`), mutating nothing on failure, and on
success sets exactly the targeted field, leaving every other table and
every other greenhouse field unchanged. -/
theorem actuator_mutators_spec (gs : List GreenhouseData) (ghId tableId : Nat)
    (b : Bool) (q : ℚ) :
    mutatesExactlyTable gs ghId tableId (setTableWatering gs ghId tableId b)
      (fun t => { t with water := b }) ∧
    mutatesExactlyTable gs ghId tableId (setTableFertilizer gs ghId tableId b)
      (fun t => { t with fertilizer := b }) ∧
    (0 ≤ q ∧ q ≤ 2000 →
      mutatesExactlyTable gs ghId tableId (setTableLight gs ghId tableId q)
        (fun t => { t with artLight := q })) ∧
    (¬(0 ≤ q ∧ q ≤ 2000) → setTableLight gs ghId tableId q = (false, gs)) ∧
    ghSetterSpec gs ghId (setGreenhouseFan gs ghId b) (fun g => { g with fan := b }) ∧
    (0 ≤ q ∧ q ≤ 100 →
      ghSetterSpec gs ghId (setGreenhouseShading gs ghId q)
        (fun g => { g with shading := q })) ∧
    (¬(0 ≤ q ∧ q ≤ 100) → setGreenhouseShading gs ghId q = (false, gs)) := by
  refine ⟨?_, ?_, ?_, ?_, ?_, ?_, ?_⟩
  · exact tableSetter_spec gs ghId tableId _ (fun t => rfl)
  · exact tableSetter_spec gs ghId tableId _ (fun t => rfl)
  · intro hr
    constructor
    · intro hnone
      unfold setTableLight
      rw [updGreenhouseTable_none gs ghId tableId (fun t => { t with artLight := q }) hnone]
    · intro x hx
      obtain ⟨gs2, hz1, hz2, hz3, hz4⟩ :=
        updGreenhouseTable_some gs ghId tableId (fun t => { t with artLight := q })
          (fun t => rfl) x hx
      unfold setTableLight
      rw [hz1]
      dsimp only
      rw [if_pos hr]
      exact ⟨rfl, hz2, hz3, hz4⟩
  · intro hr
    unfold setTableLight
    cases hupd : updGreenhouseTable gs ghId tableId (fun t => { t with artLight := q }) with
    | none => rfl
    | some gs1 =>
      dsimp only
      rw [if_neg hr]
  · exact ghSetter_spec gs ghId _ (fun g => rfl)
  · intro hr
    constructor
    · intro hnone
      unfold setGreenhouseShading
      have hfind : gs.find? (fun g => g.id = ghId) = none := hnone
      rw [(updateFirst_none_iff (fun g : GreenhouseData => g.id) ghId
        (fun g => { g with shading := q }) gs).mpr hfind]
    · intro g0 hg0
      have hfind : gs.find? (fun g => g.id = ghId) = some g0 := hg0
      obtain ⟨ys, hy1, hy2, hy3⟩ :=
        updateFirst_key_some (fun g : GreenhouseData => g.id) ghId
          (fun g => { g with shading := q }) (fun g => rfl) gs g0 hfind
      unfold setGreenhouseShading
      rw [hy1]
      dsimp only
      rw [if_pos hr]
      exact ⟨rfl, hy2, fun g hg => hy3 g hg⟩
  · intro hr
    unfold setGreenhouseShading
    cases hupd : updateFirst (fun g => g.id = ghId) (fun g => { g with shading := q }) gs with
    | none => rfl
    | some gs1 =>
      dsimp only
      rw [if_neg hr]


/-- Witness for C7 on a concrete one-greenhouse registry: watering table
(1,1) succeeds and sets exactly `water := true`; an unknown greenhouse id
fails unchanged; 3000 lumens is rejected unchanged; shading 50 succeeds. -/
theorem actuator_mutators_spec_witness :
    (setTableWatering registry0 1 1 true).1 = true ∧
    getTable (setTableWatering registry0 1 1 true).2 1 1 = some { table0 with water := true } ∧
    setTableWatering registry0 2 1 true = (false, registry0) ∧
    setTableLight registry0 1 1 3000 = (false, registry0) ∧
    (setGreenhouseShading registry0 1 50).1 = true := by
  have hA := actuator_mutators_spec registry0 1 1 true 3000
  have hB := actuator_mutators_spec registry0 2 1 true 50
  have hC := actuator_mutators_spec registry0 1 1 true 50
  have hx : getTable registry0 1 1 = some table0 := rfl
  have hw := (hA.1).2 table0 hx
  have hu := (hB.1).1 rfl
  have hl := hA.2.2.2.1 (by norm_num)
  have hsh := hC.2.2.2.2.2.1 (by norm_num)
  exact ⟨hw.1, hw.2.1, hu, hl, (hsh.2 { house0 with tables := [table0] } rfl).1⟩

end Greenhouse
